import Mathlib

/-!
Verification of the realtime-transcription backend core against its
natural-language specification.

The development shallowly embeds the Python sources:

* `app/services/summary_context.py`  — the Summary Context Store
  (`SummaryContextService`): `set_context`, `get_context`,
  `has_summary_context`, `clear_context`.
* `app/services/text_processor.py`   — the Enrichment Pipeline
  (`TextProcessor.process_text` and the synchronous worker `_call_gemini`).
* `app/services/transcription.py`    — the Session Manager
  (`TranscriptionService.register_client`, `process_audio`,
  `update_client_config`, `unregister_client`).
* `app/api/websocket.py`             — audio-frame statistics handling in
  `websocket_transcribe` and the result fan-out callback
  `send_transcription_result`.

Two pieces of the repository are not available as source and are modelled
from the specification: the supported-value sets in `app/config.py`
(`AVAILABLE_LANGUAGES`, `AVAILABLE_MODELS`) and the recognition engine
`app/audio/audio_processor.py` (`AudioProcessor`), whose contract the spec
fixes (construction may fail with a validation error; `start`/`stop`
succeed or fail; a read-only `running` flag).  Both are represented by
explicit parameters (`AppConfig`, `EngineEnv`) so that every theorem holds
for an arbitrary instantiation of the missing code.

Python dictionaries holding heterogeneous JSON-ish values are embedded as
association lists over `PyValue`; Python `None` results / raised
exceptions are embedded as `Option` / `Except`.
-/

/-- Values stored in the summary-context dictionary.  The repository only
ever stores strings (`scene`, `topic`, `summary`) and lists of strings
(`keyPoints`), mirroring the literals in `summary_context.py`. -/
inductive PyValue where
  | str (s : String) : PyValue
  | strList (l : List String) : PyValue
deriving DecidableEq, Repr

/-- State of `SummaryContextService` (summary_context.py lines 16-24):
a `has_context` flag and the stored context dictionary. -/
structure CtxState where
  has_context : Bool
  context : List (String × PyValue)
deriving DecidableEq, Repr

/-- The four required context keys, in the order of the `all(...)` check in
`set_context` (summary_context.py line 39). -/
def requiredCtxKeys : List String := ["scene", "topic", "keyPoints", "summary"]

/-- Initial state built by `SummaryContextService.__init__`
(summary_context.py lines 16-24). -/
def initCtxState : CtxState :=
  { has_context := false
    context := [("scene", .str ""), ("topic", .str ""),
                ("keyPoints", .strList []), ("summary", .str "")] }

/-- Embedding of `SummaryContextService.set_context`
(summary_context.py lines 27-61): validate that all four required keys are
present; on failure return `False` leaving the state untouched; on success
rebuild the stored dictionary from exactly the four keys (extra payload
keys are dropped, `.get` defaults are kept from the source) and set
`has_context`. -/
def set_context (s : CtxState) (context_data : List (String × PyValue)) :
    Bool × CtxState :=
  if requiredCtxKeys.all (fun key => (context_data.lookup key).isSome) then
    (true,
      { has_context := true
        context :=
          [("scene", (context_data.lookup "scene").getD (.str "")),
           ("topic", (context_data.lookup "topic").getD (.str "")),
           ("keyPoints", (context_data.lookup "keyPoints").getD (.strList [])),
           ("summary", (context_data.lookup "summary").getD (.str ""))] })
  else
    (false, s)

/-- Embedding of `SummaryContextService.get_context` (summary_context.py
lines 63-65). -/
def get_context (s : CtxState) : List (String × PyValue) := s.context

/-- Embedding of `SummaryContextService.has_summary_context`
(summary_context.py lines 67-69). -/
def has_summary_context (s : CtxState) : Bool := s.has_context

/-- Embedding of `SummaryContextService.clear_context` (summary_context.py
lines 96-105): reset the flag and the dictionary to the initial values. -/
def clear_context (_s : CtxState) : CtxState := initCtxState

/-- Operations a caller can perform on the context store (the summary API
endpoint calls `set_context`; `clear_context` is the other mutator). -/
inductive CtxOp where
  | set (payload : List (String × PyValue)) : CtxOp
  | clear : CtxOp
deriving Repr

/-- Run a sequence of store operations from a starting state, discarding
the `Bool` results of `set_context`. -/
def runCtxOps (s : CtxState) : List CtxOp → CtxState
  | [] => s
  | .set p :: rest => runCtxOps (set_context s p).2 rest
  | .clear :: rest => runCtxOps (clear_context s) rest

/-- Payload validity as checked by `set_context`: all four required keys
present. -/
def validCtxPayload (context_data : List (String × PyValue)) : Bool :=
  requiredCtxKeys.all (fun key => (context_data.lookup key).isSome)

/-- Expected value of `has_context` after one operation, given its value
before: `clear` forces it to `false`, a successful `set` forces it to
`true`, a failed `set` leaves it unchanged. -/
def stepHasContext (h : Bool) : CtxOp → Bool
  | .set p => h || validCtxPayload p
  | .clear => false

theorem set_context_invalid (s : CtxState) (p : List (String × PyValue))
    (h : validCtxPayload p = false) : set_context s p = (false, s) := by
  have h' : (requiredCtxKeys.all fun key => (p.lookup key).isSome) = false := h
  unfold set_context
  rw [h']
  rfl

theorem set_context_valid_flag (s : CtxState) (p : List (String × PyValue))
    (h : validCtxPayload p = true) : (set_context s p).2.has_context = true := by
  have h' : (requiredCtxKeys.all fun key => (p.lookup key).isSome) = true := h
  unfold set_context
  rw [h']
  rfl

theorem runCtxOps_has_context (s : CtxState) (ops : List CtxOp) :
    (runCtxOps s ops).has_context = ops.foldl stepHasContext s.has_context := by
  induction ops generalizing s with
  | nil => rfl
  | cons op rest ih =>
    cases op with
    | clear =>
      simp only [runCtxOps, List.foldl, stepHasContext]
      rw [ih]
      rfl
    | set p =>
      simp only [runCtxOps, List.foldl, stepHasContext]
      rw [ih]
      by_cases hv : validCtxPayload p = true
      · rw [congrArg (fun b => List.foldl stepHasContext b rest)
          (show (set_context s p).2.has_context = (s.has_context || validCtxPayload p) by
            rw [set_context_valid_flag s p hv, hv, Bool.or_true])]
      · have hv' : validCtxPayload p = false := by
          cases h : validCtxPayload p
          · rfl
          · exact absurd h hv
        rw [set_context_invalid s p hv', hv', Bool.or_false]

/-- C9: a `set` whose payload misses one of the four required fields
returns `false` and changes neither the stored context nor the
`has_context` flag; and over any operation sequence from the initial
state, `has_summary_context` is `true` exactly when a successful `set`
occurred with no `clear` after it (computed by folding
`stepHasContext`). -/
theorem C9_set_requires_all_fields_and_hasContext_tracks_sets :
    (∀ (s : CtxState) (p : List (String × PyValue)),
      validCtxPayload p = false → set_context s p = (false, s)) ∧
    (∀ ops : List CtxOp,
      has_summary_context (runCtxOps initCtxState ops) =
        ops.foldl stepHasContext false) := by
  constructor
  · exact set_context_invalid
  · intro ops
    have h := runCtxOps_has_context initCtxState ops
    simpa [has_summary_context, initCtxState] using h

/-- Witness for C9 at concrete inputs: a payload missing `topic` is
rejected and leaves the prior state unchanged, and after
`[set good, clear]` the flag is `false` while after `[set good]` it is
`true`. -/
theorem C9_witness :
    (validCtxPayload [("scene", PyValue.str "meeting"),
        ("keyPoints", PyValue.strList ["a"]), ("summary", PyValue.str "s")] = false ∧
      set_context initCtxState [("scene", PyValue.str "meeting"),
        ("keyPoints", PyValue.strList ["a"]), ("summary", PyValue.str "s")] =
        (false, initCtxState)) ∧
    has_summary_context (runCtxOps initCtxState
      [CtxOp.set [("scene", PyValue.str "m"), ("topic", PyValue.str "t"),
         ("keyPoints", PyValue.strList []), ("summary", PyValue.str "s")],
       CtxOp.clear]) =
      ([CtxOp.set [("scene", PyValue.str "m"), ("topic", PyValue.str "t"),
         ("keyPoints", PyValue.strList []), ("summary", PyValue.str "s")],
        CtxOp.clear].foldl stepHasContext false) := by
  refine ⟨⟨by decide, ?_⟩, ?_⟩
  · exact C9_set_requires_all_fields_and_hasContext_tracks_sets.1 _ _ (by decide)
  · exact C9_set_requires_all_fields_and_hasContext_tracks_sets.2 _

/-- Keys of a stored context dictionary. -/
def ctxKeys (s : CtxState) : List String := s.context.map Prod.fst

theorem ctxKeys_set (s : CtxState) (p : List (String × PyValue)) :
    ctxKeys (set_context s p).2 = ctxKeys s ∨
      ctxKeys (set_context s p).2 = requiredCtxKeys := by
  unfold set_context
  by_cases h : (requiredCtxKeys.all fun key => (p.lookup key).isSome) = true
  · right
    rw [h]
    rfl
  · left
    rw [Bool.eq_false_iff.mpr h]
    rfl

/-- C10: in every state reachable from initialization by `set` / `clear`
operations, the stored context has exactly the four keys
`scene`, `topic`, `keyPoints`, `summary`, in that order. -/
theorem C10_context_shape_invariant (ops : List CtxOp) :
    ctxKeys (runCtxOps initCtxState ops) = requiredCtxKeys := by
  have step : ∀ (s : CtxState), ctxKeys s = requiredCtxKeys →
      ∀ ops : List CtxOp, ctxKeys (runCtxOps s ops) = requiredCtxKeys := by
    intro s hs ops
    induction ops generalizing s with
    | nil => exact hs
    | cons op rest ih =>
      cases op with
      | clear =>
        exact ih initCtxState (by decide)
      | set p =>
        rcases ctxKeys_set s p with h | h
        · exact ih _ (h.trans hs)
        · exact ih _ h
  exact step initCtxState (by decide) ops

/-! ## Enrichment Pipeline — `app/services/text_processor.py` -/

/-- Fields of the JSON object parsed out of the Gemini response text.
Each field is optional because `_call_gemini` fills defaults for missing
keys (text_processor.py lines 226-239). -/
structure GeminiParsed where
  refined_text : Option String := none
  translation : Option String := none
  is_keyword_match : Option Bool := none
  matched_keywords : Option (List String) := none
  match_reason : Option String := none
  is_continuation : Option Bool := none
  continuation_reason : Option String := none
deriving DecidableEq, Repr

/-- Behaviour of the external LLM adapter on one call, seen from
`_call_gemini`: `raises` covers `generate_content` raising (unreachable
adapter, timeout, API error); `malformed` covers a response whose text
cannot be scraped into JSON (`json.loads` raises, text_processor.py lines
205-223 falling into the except at 257); `parsed` is a successfully
parsed JSON object. -/
inductive LLMResponse where
  | raises : LLMResponse
  | malformed : LLMResponse
  | parsed (p : GeminiParsed) : LLMResponse
deriving DecidableEq, Repr

/-- Dictionary returned by `_call_gemini` on its non-raising paths.
Optional fields mirror keys that are absent from some return sites: the
parse-failure dictionary (text_processor.py lines 260-267) has no
`matched_keywords` / `match_reason` keys. -/
structure CallRes where
  refined_text : String
  translation : String
  is_keyword_match : Bool
  matched_keywords : Option (List String)
  match_reason : Option String
  is_continuation : Bool
  continuation_reason : String
  context_enhanced : Bool
deriving DecidableEq, Repr

/-- Executable substring containment on character lists: `needle` occurs
contiguously inside `hay` (the semantics of Python's `in` on strings). -/
def containsChars (needle : List Char) : List Char → Bool
  | [] => needle.isEmpty
  | c :: rest => needle.isPrefixOf (c :: rest) || containsChars needle rest

/-- Characters of a string, lowercased (Python `s.lower()`, restricted to
ASCII case folding as used by the repository's inputs). -/
def lowerData (s : String) : List Char := s.data.map Char.toLower

/-- Python `keyword.lower() in text.lower()` (text_processor.py line 161):
case-insensitive substring test. -/
def directMatch (text keyword : String) : Bool :=
  containsChars (lowerData keyword) (lowerData text)

/-- The `direct_matches` list built in `_call_gemini` (text_processor.py
lines 159-162): keywords kept in their original order. -/
def directMatches (text : String) (keywords : List String) : List String :=
  keywords.filter (fun keyword => directMatch text keyword)

/-- Constant `match_reason` installed by the keyword-override rule
(text_processor.py line 246). -/
def directMatchReason : String := "直接文本匹配检测到关键词"

/-- Embedding of `TextProcessor._call_gemini` (text_processor.py lines
115-267).  The prompt string itself is irrelevant to the results, but its
construction interpolates `history[-1]` unconditionally (lines 180-182),
so an empty (or `None`) history raises before the adapter is ever called;
this is the first `Except.error` case.  `Except.error` models an
exception escaping the function (to be caught by `process_text`). -/
def call_gemini (store : CtxState) (resp : LLMResponse) (text : String)
    (history : List String) (keywords : List String) : Except String CallRes :=
  let using_context := has_summary_context store
  let direct_matches :=
    if !keywords.isEmpty then directMatches text keywords else []
  if history.isEmpty then
    .error "IndexError: history is empty, prompt interpolates history[-1]"
  else
    match resp with
    | .raises => .error "generate_content raised"
    | .malformed =>
        .ok { refined_text := text
              translation := ""
              is_keyword_match := false
              matched_keywords := none
              match_reason := none
              is_continuation := false
              continuation_reason := ""
              context_enhanced := using_context }
    | .parsed p =>
        let result : CallRes :=
          { refined_text := p.refined_text.getD text
            translation := p.translation.getD ""
            is_keyword_match := p.is_keyword_match.getD false
            matched_keywords := some (p.matched_keywords.getD [])
            match_reason := some (p.match_reason.getD "")
            is_continuation := p.is_continuation.getD false
            continuation_reason := p.continuation_reason.getD ""
            context_enhanced := using_context }
        let result :=
          if !keywords.isEmpty && !direct_matches.isEmpty
              && !result.is_keyword_match then
            { result with
                is_keyword_match := true
                matched_keywords := some direct_matches
                match_reason := some directMatchReason }
          else result
        .ok result

/-- Python `not text or not text.strip()` (text_processor.py line 67):
the text is empty or consists only of whitespace. -/
def isBlank (s : String) : Bool := s.data.all (fun c => c.isWhitespace)

/-- Dictionary returned by `TextProcessor.process_text`.  `success` is
present on every return path; `matched_keywords`, `match_reason`,
`context_enhanced` and `error` are keys that some paths omit
(text_processor.py lines 56-113). -/
structure ProcResult where
  refined_text : String
  translation : String
  is_keyword_match : Bool
  matched_keywords : Option (List String)
  match_reason : Option String
  is_continuation : Bool
  continuation_reason : String
  context_enhanced : Option Bool
  success : Bool
  error : Option String
deriving DecidableEq, Repr

/-- Degraded dictionary shared by the unavailable / empty-text / exception
paths of `process_text` (text_processor.py lines 58-65, 69-76, 105-113);
the exception path additionally populates `error`. -/
def degradedResult (text : String) (err : Option String) : ProcResult :=
  { refined_text := text
    translation := ""
    is_keyword_match := false
    matched_keywords := none
    match_reason := none
    is_continuation := false
    continuation_reason := ""
    context_enhanced := none
    success := false
    error := err }

/-- Embedding of `TextProcessor.process_text` (text_processor.py lines
43-113).  `available` is `bool(GEMINI_API_KEY)`; `resp` abstracts the
external adapter's behaviour on this call.  Any exception escaping
`call_gemini` is caught and mapped to the degraded dictionary with
`error` populated; a successful call is returned with `success: True`
merged in (line 97-100). -/
def process_text (store : CtxState) (available : Bool) (resp : LLMResponse)
    (text : String) (history : List String)
    (_source_language _target_language : String)
    (keywords : List String) : ProcResult :=
  if !available then degradedResult text none
  else if isBlank text then degradedResult text none
  else
    match call_gemini store resp text history keywords with
    | .ok r =>
        { refined_text := r.refined_text
          translation := r.translation
          is_keyword_match := r.is_keyword_match
          matched_keywords := r.matched_keywords
          match_reason := r.match_reason
          is_continuation := r.is_continuation
          continuation_reason := r.continuation_reason
          context_enhanced := some r.context_enhanced
          success := true
          error := none }
    | .error e => degradedResult text (some e)

theorem call_gemini_raises (store : CtxState) (text : String)
    (history keywords : List String) (hh : history.isEmpty = false) :
    call_gemini store .raises text history keywords =
      .error "generate_content raised" := by
  unfold call_gemini
  rw [hh]
  rfl

theorem call_gemini_empty_history (store : CtxState) (resp : LLMResponse)
    (text : String) (keywords : List String) :
    call_gemini store resp text [] keywords =
      .error "IndexError: history is empty, prompt interpolates history[-1]" := by
  rfl

theorem call_gemini_malformed (store : CtxState) (text : String)
    (history keywords : List String) (hh : history.isEmpty = false) :
    call_gemini store .malformed text history keywords =
      .ok { refined_text := text, translation := "", is_keyword_match := false,
            matched_keywords := none, match_reason := none,
            is_continuation := false, continuation_reason := "",
            context_enhanced := has_summary_context store } := by
  unfold call_gemini
  rw [hh]
  rfl

/-- C6 counterexample: with the adapter reachable but returning output
that cannot be parsed as JSON (`LLMResponse.malformed`), the pipeline
returns `success = true` with no `error`, because the parse failure is
swallowed inside `_call_gemini` (text_processor.py lines 257-267, a
dictionary without a `success` key) and `process_text` then merges
`"success": True` over it (lines 97-100).  The claim requires
`success=false` and `error` populated on malformed output. -/
theorem C6_counterexample :
    (process_text initCtxState true .malformed "hello" ["previous"] "zh" "en"
        []).success = true ∧
    (process_text initCtxState true .malformed "hello" ["previous"] "zh" "en"
        []).error = none := by
  exact ⟨rfl, rfl⟩

/-- C6 (amended): when the adapter raises (unreachable / timeout / API
error), `process_text` returns the degraded dictionary — `refined_text`
equal to the input, empty `translation`, `is_keyword_match` and
`is_continuation` false, `success=false`, `error` populated — and, being
a total function, propagates no exception; but when the adapter is
reachable and returns malformed output, the degraded field values are
produced with `success=true` and no `error`. -/
theorem C6_llm_failure_degrades
    (store : CtxState) (text : String) (history keywords : List String)
    (src tgt : String) (htext : isBlank text = false)
    (hh : history.isEmpty = false) :
    process_text store true .raises text history src tgt keywords =
      degradedResult text (some "generate_content raised") ∧
    process_text store true .malformed text history src tgt keywords =
      { refined_text := text, translation := "", is_keyword_match := false,
        matched_keywords := none, match_reason := none,
        is_continuation := false, continuation_reason := "",
        context_enhanced := some (has_summary_context store),
        success := true, error := none } := by
  constructor
  · unfold process_text
    rw [htext, call_gemini_raises store text history keywords hh]
    rfl
  · unfold process_text
    rw [htext, call_gemini_malformed store text history keywords hh]
    rfl

/-- Witness for C6 at concrete inputs. -/
theorem C6_witness :
    isBlank "hi there" = false ∧ (["prev"] : List String).isEmpty = false ∧
    process_text initCtxState true .raises "hi there" ["prev"] "zh" "en" [] =
      degradedResult "hi there" (some "generate_content raised") := by
  refine ⟨by decide, by decide, ?_⟩
  exact (C6_llm_failure_degrades initCtxState "hi there" ["prev"] []
    "zh" "en" (by decide) (by decide)).1

theorem call_gemini_parsed_override (store : CtxState) (p : GeminiParsed)
    (text : String) (history keywords : List String)
    (hh : history.isEmpty = false) (hk : keywords.isEmpty = false)
    (hd : (directMatches text keywords).isEmpty = false)
    (hm : p.is_keyword_match.getD false = false) :
    call_gemini store (.parsed p) text history keywords =
      .ok { refined_text := p.refined_text.getD text
            translation := p.translation.getD ""
            is_keyword_match := true
            matched_keywords := some (directMatches text keywords)
            match_reason := some directMatchReason
            is_continuation := p.is_continuation.getD false
            continuation_reason := p.continuation_reason.getD ""
            context_enhanced := has_summary_context store } := by
  unfold call_gemini
  rw [hh]
  simp only [hk, hd, hm, Bool.not_false, if_true, Bool.and_self, Bool.and_true,
    Bool.true_and, ite_true]
  rfl

theorem call_gemini_parsed_no_override (store : CtxState) (p : GeminiParsed)
    (text : String) (history keywords : List String)
    (hh : history.isEmpty = false)
    (hno : (directMatches text keywords).isEmpty = true ∨
      p.is_keyword_match.getD false = true) :
    call_gemini store (.parsed p) text history keywords =
      .ok { refined_text := p.refined_text.getD text
            translation := p.translation.getD ""
            is_keyword_match := p.is_keyword_match.getD false
            matched_keywords := some (p.matched_keywords.getD [])
            match_reason := some (p.match_reason.getD "")
            is_continuation := p.is_continuation.getD false
            continuation_reason := p.continuation_reason.getD ""
            context_enhanced := has_summary_context store } := by
  unfold call_gemini
  rw [hh]
  cases hkk : keywords.isEmpty with
  | true => simp [hkk]
  | false =>
    rcases hno with hno | hno
    · simp [hkk, hno]
    · simp [hkk, hno]

/-- C7 counterexample: keywords `["refund"]`, utterance
`"I want a REFUND please"`, model report `is_keyword_match=false`.  The
override fires as the claim says, but `match_reason` is the fixed
constant `"直接文本匹配检测到关键词"` (text_processor.py line 246), not the
string `"direct substring match"` stated by the claim. -/
theorem C7_counterexample :
    (process_text initCtxState true
        (.parsed { is_keyword_match := some false })
        "I want a REFUND please" ["earlier sentence"] "en" "zh"
        ["refund"]).is_keyword_match = true ∧
    (process_text initCtxState true
        (.parsed { is_keyword_match := some false })
        "I want a REFUND please" ["earlier sentence"] "en" "zh"
        ["refund"]).matched_keywords = some ["refund"] ∧
    (process_text initCtxState true
        (.parsed { is_keyword_match := some false })
        "I want a REFUND please" ["earlier sentence"] "en" "zh"
        ["refund"]).match_reason ≠ some "direct substring match" := by
  refine ⟨by decide, by decide, by decide⟩

/-- C7 (amended): on a parsed model response with a non-empty keyword
list (and a non-blank utterance and non-empty history, so the call
reaches the model), if some keyword matches the raw utterance
case-insensitively but the (defaulted) model report has
`is_keyword_match=false`, the result is forced to `is_keyword_match=true`
with `matched_keywords` the direct matches in keyword-list order and
`match_reason` the fixed constant `"直接文本匹配检测到关键词"`; when no direct
match exists or the model already reported a match, the model-reported
fields (with defaults for absent keys) are kept as-is. -/
theorem C7_keyword_override (store : CtxState) (p : GeminiParsed)
    (text : String) (history keywords : List String) (src tgt : String)
    (htext : isBlank text = false) (hh : history.isEmpty = false)
    (hk : keywords.isEmpty = false) :
    ((directMatches text keywords).isEmpty = false →
      p.is_keyword_match.getD false = false →
      (process_text store true (.parsed p) text history src tgt
          keywords).is_keyword_match = true ∧
      (process_text store true (.parsed p) text history src tgt
          keywords).matched_keywords = some (directMatches text keywords) ∧
      (process_text store true (.parsed p) text history src tgt
          keywords).match_reason = some directMatchReason) ∧
    ((directMatches text keywords).isEmpty = true ∨
        p.is_keyword_match.getD false = true →
      (process_text store true (.parsed p) text history src tgt
          keywords).is_keyword_match = p.is_keyword_match.getD false ∧
      (process_text store true (.parsed p) text history src tgt
          keywords).matched_keywords = some (p.matched_keywords.getD []) ∧
      (process_text store true (.parsed p) text history src tgt
          keywords).match_reason = some (p.match_reason.getD "")) := by
  constructor
  · intro hd hm
    unfold process_text
    rw [htext, call_gemini_parsed_override store p text history keywords
      hh hk hd hm]
    exact ⟨rfl, rfl, rfl⟩
  · intro hno
    unfold process_text
    rw [htext, call_gemini_parsed_no_override store p text history keywords
      hh hno]
    exact ⟨rfl, rfl, rfl⟩

/-- Witness for C7 at concrete inputs: the override case on
`["refund"]` / `"I want a REFUND please"`, and the kept-as-is case on a
keyword that does not occur. -/
theorem C7_witness :
    isBlank "I want a REFUND please" = false ∧
    (["earlier sentence"] : List String).isEmpty = false ∧
    ((["refund"] : List String).isEmpty = false ∧
      (directMatches "I want a REFUND please" ["refund"]).isEmpty = false ∧
      (process_text initCtxState true
          (.parsed { is_keyword_match := some false })
          "I want a REFUND please" ["earlier sentence"] "en" "zh"
          ["refund"]).matched_keywords =
        some (directMatches "I want a REFUND please" ["refund"])) ∧
    ((directMatches "I want a REFUND please" ["cat"]).isEmpty = true ∧
      (process_text initCtxState true
          (.parsed { is_keyword_match := some false })
          "I want a REFUND please" ["earlier sentence"] "en" "zh"
          ["cat"]).is_keyword_match = false) := by
  refine ⟨by decide, by decide, ⟨by decide, by decide, ?_⟩, ⟨by decide, ?_⟩⟩
  · exact ((C7_keyword_override initCtxState { is_keyword_match := some false }
      "I want a REFUND please" ["earlier sentence"] ["refund"] "en" "zh"
      (by decide) (by decide) (by decide)).1 (by decide) (by decide)).2.1
  · exact (((C7_keyword_override initCtxState { is_keyword_match := some false }
      "I want a REFUND please" ["earlier sentence"] ["cat"] "en" "zh"
      (by decide) (by decide) (by decide)).2 (Or.inl (by decide))).1).trans
      (by decide)

/-! ## Session Manager — `app/services/transcription.py` -/

/-- Modelled from the spec: the fixed supported sets of `app/config.py`
(`AVAILABLE_LANGUAGES`, `AVAILABLE_MODELS`), which is repository code not
available as source.  The spec only fixes that they are fixed sets
checked by membership, so they are parameters here. -/
structure AppConfig where
  AVAILABLE_LANGUAGES : List String
  AVAILABLE_MODELS : List String

/-- Modelled from the spec: one `AudioProcessor` instance
(`app/audio/audio_processor.py`, repository code not available as source;
the spec's Engine Adapter contract, §4.2).  `pid` is the identity of the
handle (each construction yields a fresh one), the remaining fields are
the engine's read-only status. -/
structure Processor where
  pid : Nat
  language : String
  model_type : String
  debug_mode : Bool
  running : Bool
deriving DecidableEq, Repr

/-- Modelled from the spec: outcome of the engine adapter's fallible
operations on this run.  `constructOk` says whether
`AudioProcessor(language, model_type, ...)` builds (it may fail with a
validation error, e.g. an unsupported language); `startOk` / `stopOk`
say whether `start()` / `stop()` of the processor with the given handle
identity succeed (a failure is a raised exception at the call site).  A
successful `start` sets `running=True`, a successful `stop` sets
`running=False`. -/
structure EngineEnv where
  constructOk : String → String → Bool
  startOk : Nat → Bool
  stopOk : Nat → Bool

/-- One client entry of `TranscriptionService.clients`
(transcription.py lines 35-44; `registered_at` and the stored `callback`
are omitted: the wall-clock instant is irrelevant to the claims and the
callback stored is always the one global fan-out function). -/
structure Client where
  processor : Processor
  language : String
  model_type : String
  target_language : String
  debug_mode : Bool
  keywords : List String
deriving DecidableEq, Repr

/-- The `clients` dictionary: a finite map from client id to entry. -/
def Registry : Type := String → Option Client

/-- Python dictionary assignment `self.clients[client_id] = c`. -/
def Registry.store (reg : Registry) (client_id : String) (c : Client) :
    Registry :=
  fun x => if x = client_id then some c else reg x

/-- Engine-lifecycle events observable during one Session Manager
operation, in program order: a construction attempt, a `start()` or
`stop()` call on a handle (with its outcome), and the swap of a session's
stored engine handle to a new one. -/
inductive Event where
  | construct (pid : Nat) (ok : Bool) : Event
  | start (pid : Nat) (ok : Bool) : Event
  | stop (pid : Nat) (ok : Bool) : Event
  | swap (pid : Nat) : Event
deriving DecidableEq, Repr

/-- Embedding of `TranscriptionService.register_client`
(transcription.py lines 19-54).  `freshPid` is the identity of the
processor a successful construction would yield.  The source stores the
client entry (line 35) before starting the processor (line 47); a raised
exception anywhere is caught and turned into a `None` return (lines
51-54) without removing anything. -/
def register_client (env : EngineEnv) (freshPid : Nat) (reg : Registry)
    (client_id : String) (language model_type : String)
    (debug_mode : Bool) : Option Processor × Registry × List Event :=
  if env.constructOk language model_type then
    let processor : Processor :=
      { pid := freshPid, language := language, model_type := model_type,
        debug_mode := debug_mode, running := false }
    let entry : Client :=
      { processor := processor, language := language,
        model_type := model_type, target_language := "en",
        debug_mode := debug_mode, keywords := [] }
    if env.startOk freshPid then
      let started := { processor with running := true }
      (some started,
        reg.store client_id { entry with processor := started },
        [.construct freshPid true, .start freshPid true])
    else
      (none, reg.store client_id entry,
        [.construct freshPid true, .start freshPid false])
  else
    (none, reg, [.construct freshPid false])

/-- Embedding of `TranscriptionService.process_audio` (transcription.py
lines 56-90): unknown id fails immediately; a stopped processor gets one
restart attempt before the frame is forwarded; forwarding outcome
`feedOk` abstracts `processor.process_audio` of the external engine.
Returns the success flag, the registry (the stored processor's `running`
may change), and the events. -/
def process_audio (env : EngineEnv) (feedOk : Nat → Bool) (reg : Registry)
    (client_id : String) : Bool × Registry × List Event :=
  match reg client_id with
  | none => (false, reg, [])
  | some c =>
      let processor := c.processor
      if processor.running then
        (feedOk processor.pid, reg, [])
      else
        if env.startOk processor.pid then
          let c1 := { c with processor := { processor with running := true } }
          (feedOk processor.pid, reg.store client_id c1,
            [.start processor.pid true])
        else
          (false, reg.store client_id c, [.start processor.pid false])

/-- The in-place merge of new configuration values into the stored client
dictionary performed by `update_client_config` before any validation
(transcription.py lines 139-149). -/
def mergeClient (c : Client) (language model_type target_language :
    Option String) : Client :=
  { c with
      language := language.getD c.language
      model_type := model_type.getD c.model_type
      target_language := target_language.getD c.target_language }

/-- Result of `update_client_config`: the Python return value, the
registry afterwards, and the engine-lifecycle events in order. -/
structure UpdateOutcome where
  success : Bool
  reg : Registry
  events : List Event

/-- Embedding of `TranscriptionService.update_client_config`
(transcription.py lines 114-224).  Faithful points: the stored entry's
`language` / `model_type` / `target_language` are overwritten before the
supported-set validation (lines 139-158); on valid values the old
processor is stopped (line 165), the replacement is constructed
(line 180), the stored handle is swapped to it (line 202) and only then
is it started (line 206); on a construction or start failure the code
restarts the local variable `processor` — the original engine — whether
or not it is still the stored handle (lines 210-220), and a failure of
that rollback is itself swallowed; every failure path returns `False`. -/
def update_client_config (cfg : AppConfig) (env : EngineEnv)
    (freshPid : Nat) (reg : Registry) (client_id : String)
    (language model_type target_language : Option String) : UpdateOutcome :=
  match reg client_id with
  | none => { success := false, reg := reg, events := [] }
  | some c0 =>
      let c1 := mergeClient c0 language model_type target_language
      let oldP := c0.processor
      if c1.language ∈ cfg.AVAILABLE_LANGUAGES then
        if c1.model_type ∈ cfg.AVAILABLE_MODELS then
          if env.stopOk oldP.pid then
            let stoppedP := { oldP with running := false }
            let c2 := { c1 with processor := stoppedP }
            if env.constructOk c1.language c1.model_type then
              let newP : Processor :=
                { pid := freshPid, language := c1.language,
                  model_type := c1.model_type,
                  debug_mode := c0.debug_mode, running := false }
              let c3 := { c2 with processor := newP }
              if env.startOk freshPid then
                { success := true
                  reg := reg.store client_id
                    { c3 with processor := { newP with running := true } }
                  events := [.stop oldP.pid true, .construct freshPid true,
                    .swap freshPid, .start freshPid true] }
              else
                { success := false
                  reg := reg.store client_id c3
                  events := [.stop oldP.pid true, .construct freshPid true,
                    .swap freshPid, .start freshPid false,
                    .start oldP.pid (env.startOk oldP.pid)] }
            else
              if env.startOk oldP.pid then
                { success := false
                  reg := reg.store client_id
                    { c2 with processor := { stoppedP with running := true } }
                  events := [.stop oldP.pid true, .construct freshPid false,
                    .start oldP.pid true] }
              else
                { success := false
                  reg := reg.store client_id c2
                  events := [.stop oldP.pid true, .construct freshPid false,
                    .start oldP.pid false] }
          else
            { success := false
              reg := reg.store client_id c1
              events := [.stop oldP.pid false] }
        else
          { success := false, reg := reg.store client_id c1, events := [] }
      else
        { success := false, reg := reg.store client_id c1, events := [] }

/-- Embedding of `TranscriptionService.unregister_client`
(transcription.py lines 92-112): stop the processor and delete the entry;
an absent id is a successful no-op; a `stop` failure leaves the entry. -/
def unregister_client (env : EngineEnv) (reg : Registry)
    (client_id : String) : Bool × Registry × List Event :=
  match reg client_id with
  | none => (true, reg, [])
  | some c =>
      if env.stopOk c.processor.pid then
        (true, fun x => if x = client_id then none else reg x,
          [.stop c.processor.pid true])
      else
        (false,
          Registry.store reg client_id
            { c with processor := { c.processor with running := false } },
          [.stop c.processor.pid false])

/-- Concrete supported sets for witnesses and counterexamples. -/
def cfgW : AppConfig :=
  { AVAILABLE_LANGUAGES := ["zh", "en", "ja"],
    AVAILABLE_MODELS := ["tiny", "base"] }

/-- Engine environment in which every adapter operation succeeds. -/
def envAllOk : EngineEnv :=
  { constructOk := fun _ _ => true, startOk := fun _ => true,
    stopOk := fun _ => true }

/-- A registered session `"a"` with engine handle identity 0, running. -/
def clientA : Client :=
  { processor := { pid := 0, language := "zh", model_type := "tiny",
                   debug_mode := true, running := true },
    language := "zh", model_type := "tiny", target_language := "en",
    debug_mode := true, keywords := [] }

/-- Registry holding exactly the session `"a"`. -/
def regA : Registry := fun x => if x = "a" then some clientA else none

/-- C2 counterexample: on session `"a"` stored with `language="zh"`,
`update_client_config` with the unsupported language `"xx"` returns
failure and leaves the engine handle untouched, but the stored language
is now `"xx"`, not the `"zh"` it held before the call — the claim's "
mutates nothing" is false (transcription.py lines 139-141 assign before
the validation at line 152). -/
theorem C2_counterexample :
    (update_client_config cfgW envAllOk 1 regA "a" (some "xx") none
        none).success = false ∧
    (update_client_config cfgW envAllOk 1 regA "a" (some "xx") none
        none).events = [] ∧
    ((update_client_config cfgW envAllOk 1 regA "a" (some "xx") none
        none).reg "a").map Client.language = some "xx" ∧
    (regA "a").map Client.language = some "zh" := by
  refine ⟨by decide, by decide, by decide, by decide⟩

/-- C2 (amended): for a registered session, `updateConfig` with a merged
language or model outside the supported sets returns failure and performs
no engine operation — the stored engine handle is exactly the one held
before — but the session's stored `language` / `model_type` /
`target_language` are overwritten with the merged new values before
validation, so those fields do not survive unchanged. -/
theorem C2_invalid_update_keeps_engine_mutates_fields
    (cfg : AppConfig) (env : EngineEnv) (freshPid : Nat) (reg : Registry)
    (cid : String) (L M T : Option String) (c0 : Client)
    (h : reg cid = some c0)
    (hinv : ¬ ((mergeClient c0 L M T).language ∈ cfg.AVAILABLE_LANGUAGES ∧
      (mergeClient c0 L M T).model_type ∈ cfg.AVAILABLE_MODELS)) :
    (update_client_config cfg env freshPid reg cid L M T).success = false ∧
    (update_client_config cfg env freshPid reg cid L M T).events = [] ∧
    (update_client_config cfg env freshPid reg cid L M T).reg cid =
      some (mergeClient c0 L M T) ∧
    (mergeClient c0 L M T).processor = c0.processor := by
  by_cases hL : (mergeClient c0 L M T).language ∈ cfg.AVAILABLE_LANGUAGES
  · have hM : ¬ (mergeClient c0 L M T).model_type ∈ cfg.AVAILABLE_MODELS :=
      fun hM => hinv ⟨hL, hM⟩
    refine ⟨?_, ?_, ?_, rfl⟩ <;>
      simp [update_client_config, h, hL, hM, Registry.store]
  · refine ⟨?_, ?_, ?_, rfl⟩ <;>
      simp [update_client_config, h, hL, Registry.store]

/-- Witness for C2 (amended) at concrete inputs. -/
theorem C2_witness :
    regA "a" = some clientA ∧
    ¬ ((mergeClient clientA (some "xx") none none).language ∈
        cfgW.AVAILABLE_LANGUAGES ∧
      (mergeClient clientA (some "xx") none none).model_type ∈
        cfgW.AVAILABLE_MODELS) ∧
    (update_client_config cfgW envAllOk 1 regA "a" (some "xx") none
        none).events = [] ∧
    (mergeClient clientA (some "xx") none none).processor =
      clientA.processor := by
  refine ⟨by decide, by decide, ?_, ?_⟩
  · exact (C2_invalid_update_keeps_engine_mutates_fields cfgW envAllOk 1 regA
      "a" (some "xx") none none clientA (by decide) (by decide)).2.1
  · exact (C2_invalid_update_keeps_engine_mutates_fields cfgW envAllOk 1 regA
      "a" (some "xx") none none clientA (by decide) (by decide)).2.2.2

/-- "Every handle swap is preceded by a successful start of that handle"
over an event list, given the set of already-started handles. -/
def swapsAfterStart (started : List Nat) : List Event → Bool
  | [] => true
  | .swap pid :: rest => started.contains pid && swapsAfterStart started rest
  | .start pid true :: rest => swapsAfterStart (pid :: started) rest
  | _ :: rest => swapsAfterStart started rest

/-- C3 counterexample: a fully successful reconfiguration of session
`"a"` produces the event order stop(0) · construct(1) · swap(1) ·
start(1) — the stored handle is swapped to the replacement *before* the
replacement is started (transcription.py line 202 before line 206), so
the claim's "swaps only after the replacement engine has been started"
fails. -/
theorem C3_counterexample :
    (update_client_config cfgW envAllOk 1 regA "a" (some "en") none
        none).success = true ∧
    (update_client_config cfgW envAllOk 1 regA "a" (some "en") none
        none).events =
      [.stop 0 true, .construct 1 true, .swap 1, .start 1 true] ∧
    swapsAfterStart []
      (update_client_config cfgW envAllOk 1 regA "a" (some "en") none
        none).events = false := by
  refine ⟨by decide, by decide, by decide⟩

/-- C3 (amended): for a registered session, `updateConfig` with supported
merged values, when stop, construction and start all succeed, performs
exactly one stop of the old engine, then one construction of the
replacement, then swaps the stored handle to the replacement, then one
start of the replacement — one stop and one start, in that order, with
the swap *between construction and start* rather than after the start —
and returns success with the stored engine running. -/
theorem C3_valid_update_stop_start_order
    (cfg : AppConfig) (env : EngineEnv) (freshPid : Nat) (reg : Registry)
    (cid : String) (L M T : Option String) (c0 : Client)
    (h : reg cid = some c0)
    (hL : (mergeClient c0 L M T).language ∈ cfg.AVAILABLE_LANGUAGES)
    (hM : (mergeClient c0 L M T).model_type ∈ cfg.AVAILABLE_MODELS)
    (hstop : env.stopOk c0.processor.pid = true)
    (hcons : env.constructOk (mergeClient c0 L M T).language
      (mergeClient c0 L M T).model_type = true)
    (hstart : env.startOk freshPid = true) :
    (update_client_config cfg env freshPid reg cid L M T).success = true ∧
    (update_client_config cfg env freshPid reg cid L M T).events =
      [.stop c0.processor.pid true, .construct freshPid true,
        .swap freshPid, .start freshPid true] ∧
    ((update_client_config cfg env freshPid reg cid L M T).reg cid).map
      (fun c => c.processor.running) = some true ∧
    ((update_client_config cfg env freshPid reg cid L M T).reg cid).map
      (fun c => c.processor.pid) = some freshPid := by
  simp [update_client_config, h, hL, hM, hstop, hcons, hstart, Registry.store]

/-- Witness for C3 (amended) at concrete inputs. -/
theorem C3_witness :
    regA "a" = some clientA ∧
    (update_client_config cfgW envAllOk 1 regA "a" (some "en") none
        none).events =
      [.stop 0 true, .construct 1 true, .swap 1, .start 1 true] ∧
    ((update_client_config cfgW envAllOk 1 regA "a" (some "en") none
        none).reg "a").map (fun c => c.processor.running) = some true := by
  refine ⟨by decide, ?_, ?_⟩
  · exact (C3_valid_update_stop_start_order cfgW envAllOk 1 regA "a"
      (some "en") none none clientA (by decide) (by decide) (by decide)
      (by decide) (by decide) (by decide)).2.1
  · exact (C3_valid_update_stop_start_order cfgW envAllOk 1 regA "a"
      (some "en") none none clientA (by decide) (by decide) (by decide)
      (by decide) (by decide) (by decide)).2.2.1

/-- Engine environment in which construction succeeds but starting the
replacement handle (identity 1) fails, while handle 0 starts fine. -/
def envNewStartFails : EngineEnv :=
  { constructOk := fun _ _ => true,
    startOk := fun pid => pid == 0,
    stopOk := fun _ => true }

/-- C4 counterexample: reconfiguring session `"a"` (original handle 0)
when the replacement (handle 1) fails to start.  The handle was already
swapped (transcription.py line 202), so the session holds the
replacement, not the original; the rollback restarts the original
(handle 0, the local variable `processor`, line 216) even though it is no
longer the held handle, and the held handle is left not running.  The
claim's "restart the original engine still held by the session" is
false. -/
theorem C4_counterexample :
    (update_client_config cfgW envNewStartFails 1 regA "a" (some "en") none
        none).success = false ∧
    ((update_client_config cfgW envNewStartFails 1 regA "a" (some "en") none
        none).reg "a").map (fun c => c.processor.pid) = some 1 ∧
    ((update_client_config cfgW envNewStartFails 1 regA "a" (some "en") none
        none).reg "a").map (fun c => c.processor.pid) ≠ some 0 ∧
    Event.start 0 true ∈
      (update_client_config cfgW envNewStartFails 1 regA "a" (some "en") none
        none).events ∧
    ((update_client_config cfgW envNewStartFails 1 regA "a" (some "en") none
        none).reg "a").map (fun c => c.processor.running) = some false := by
  refine ⟨by decide, by decide, by decide, by decide, by decide⟩

/-- C4 (amended): during `updateConfig` on a registered session with
supported merged values and a successful stop of the old engine, if
*construction* of the replacement fails the session still holds the
original handle, the manager attempts to restart it (event
`start(old, rollbackOutcome)`) and returns failure, the held engine
running exactly when the rollback succeeded; if construction succeeds
but *start* of the replacement fails, the stored handle has already been
swapped to the replacement, the manager nevertheless attempts to restart
the original (no-longer-held) engine, returns failure, and leaves the
held replacement not running.  In both cases — including when the
rollback restart itself fails — the failure is surfaced as a `False`
return, never swallowed. -/
theorem C4_replacement_failure_rollback
    (cfg : AppConfig) (env : EngineEnv) (freshPid : Nat) (reg : Registry)
    (cid : String) (L M T : Option String) (c0 : Client)
    (h : reg cid = some c0)
    (hL : (mergeClient c0 L M T).language ∈ cfg.AVAILABLE_LANGUAGES)
    (hM : (mergeClient c0 L M T).model_type ∈ cfg.AVAILABLE_MODELS)
    (hstop : env.stopOk c0.processor.pid = true) :
    (env.constructOk (mergeClient c0 L M T).language
        (mergeClient c0 L M T).model_type = false →
      (update_client_config cfg env freshPid reg cid L M T).success = false ∧
      ((update_client_config cfg env freshPid reg cid L M T).reg cid).map
        (fun c => c.processor.pid) = some c0.processor.pid ∧
      Event.start c0.processor.pid (env.startOk c0.processor.pid) ∈
        (update_client_config cfg env freshPid reg cid L M T).events ∧
      ((update_client_config cfg env freshPid reg cid L M T).reg cid).map
        (fun c => c.processor.running) =
          some (env.startOk c0.processor.pid)) ∧
    (env.constructOk (mergeClient c0 L M T).language
        (mergeClient c0 L M T).model_type = true →
      env.startOk freshPid = false →
      (update_client_config cfg env freshPid reg cid L M T).success = false ∧
      ((update_client_config cfg env freshPid reg cid L M T).reg cid).map
        (fun c => c.processor.pid) = some freshPid ∧
      Event.start c0.processor.pid (env.startOk c0.processor.pid) ∈
        (update_client_config cfg env freshPid reg cid L M T).events ∧
      ((update_client_config cfg env freshPid reg cid L M T).reg cid).map
        (fun c => c.processor.running) = some false) := by
  constructor
  · intro hcons
    cases hrb : env.startOk c0.processor.pid with
    | true =>
        refine ⟨?_, ?_, ?_, ?_⟩ <;>
          simp [update_client_config, h, hL, hM, hstop, hcons, hrb,
            Registry.store]
    | false =>
        refine ⟨?_, ?_, ?_, ?_⟩ <;>
          simp [update_client_config, h, hL, hM, hstop, hcons, hrb,
            Registry.store]
  · intro hcons hstart
    refine ⟨?_, ?_, ?_, ?_⟩ <;>
      simp [update_client_config, h, hL, hM, hstop, hcons, hstart,
        Registry.store]

/-- Witness for C4 (amended) at concrete inputs: construction failure
with successful rollback, and start failure of the replacement. -/
theorem C4_witness :
    ((update_client_config cfgW
        { constructOk := fun _ _ => false, startOk := fun _ => true,
          stopOk := fun _ => true } 1 regA "a" (some "en") none
        none).success = false ∧
      ((update_client_config cfgW
        { constructOk := fun _ _ => false, startOk := fun _ => true,
          stopOk := fun _ => true } 1 regA "a" (some "en") none
        none).reg "a").map (fun c => c.processor.pid) = some 0) ∧
    ((update_client_config cfgW envNewStartFails 1 regA "a" (some "en") none
        none).success = false ∧
      ((update_client_config cfgW envNewStartFails 1 regA "a" (some "en")
        none none).reg "a").map (fun c => c.processor.running) =
          some false) := by
  constructor
  · have hc := (C4_replacement_failure_rollback cfgW
      { constructOk := fun _ _ => false, startOk := fun _ => true,
        stopOk := fun _ => true } 1 regA "a" (some "en") none none clientA
      (by decide) (by decide) (by decide) (by decide)).1 (by decide)
    exact ⟨hc.1, hc.2.1⟩
  · have hs := (C4_replacement_failure_rollback cfgW envNewStartFails 1 regA
      "a" (some "en") none none clientA (by decide) (by decide) (by decide)
      (by decide)).2 (by decide) (by decide)
    exact ⟨hs.1, hs.2.2.2⟩

/-- Engine environment in which construction succeeds and every start
fails. -/
def envStartFails : EngineEnv :=
  { constructOk := fun _ _ => true, startOk := fun _ => false,
    stopOk := fun _ => true }

/-- The empty registry. -/
def regEmpty : Registry := fun _ => none

/-- C5 counterexample: registering `"a"` into an empty registry when the
engine constructs but fails to start returns `None` (a failure) to the
caller, yet the session entry remains in the registry: the source stores
`self.clients[client_id]` (transcription.py line 35) before
`processor.start()` (line 47), and the exception handler (lines 51-54)
does not remove it. -/
theorem C5_counterexample :
    (register_client envStartFails 0 regEmpty "a" "zh" "tiny" true).1 =
      none ∧
    ((register_client envStartFails 0 regEmpty "a" "zh" "tiny"
        true).2.1 "a").isSome = true := by
  refine ⟨by decide, by decide⟩

/-- C5 (amended): if engine *construction* fails (including the
spec-modelled validation failure for an unsupported language), the caller
receives `None` and the registry is exactly the one before the call — no
session entry is created; if construction succeeds but *startup* fails,
the caller still receives `None`, but the freshly stored session entry
remains in the registry, holding the never-started engine handle. -/
theorem C5_register_failure (env : EngineEnv) (freshPid : Nat)
    (reg : Registry) (cid : String) (language model_type : String)
    (debug_mode : Bool) :
    (env.constructOk language model_type = false →
      (register_client env freshPid reg cid language model_type
        debug_mode).1 = none ∧
      (register_client env freshPid reg cid language model_type
        debug_mode).2.1 = reg) ∧
    (env.constructOk language model_type = true →
      env.startOk freshPid = false →
      (register_client env freshPid reg cid language model_type
        debug_mode).1 = none ∧
      (register_client env freshPid reg cid language model_type
        debug_mode).2.1 cid = some
        { processor :=
            { pid := freshPid, language := language,
              model_type := model_type, debug_mode := debug_mode,
              running := false },
          language := language, model_type := model_type,
          target_language := "en", debug_mode := debug_mode,
          keywords := [] }) := by
  constructor
  · intro hc
    refine ⟨?_, ?_⟩ <;> simp [register_client, hc]
  · intro hc hs
    refine ⟨?_, ?_⟩ <;> simp [register_client, hc, hs, Registry.store]

/-- Witness for C5 (amended) at concrete inputs: construction failure
creates nothing; startup failure leaves an entry behind. -/
theorem C5_witness :
    ((register_client
        { constructOk := fun _ _ => false, startOk := fun _ => true,
          stopOk := fun _ => true } 0 regEmpty "a" "not-a-language" "tiny"
        true).1 = none ∧
      (register_client
        { constructOk := fun _ _ => false, startOk := fun _ => true,
          stopOk := fun _ => true } 0 regEmpty "a" "not-a-language" "tiny"
        true).2.1 = regEmpty) ∧
    ((register_client envStartFails 0 regEmpty "a" "zh" "tiny" true).1 =
        none ∧
      (register_client envStartFails 0 regEmpty "a" "zh" "tiny"
          true).2.1 "a" = some
        { processor :=
            { pid := 0, language := "zh", model_type := "tiny",
              debug_mode := true, running := false },
          language := "zh", model_type := "tiny", target_language := "en",
          debug_mode := true, keywords := [] }) := by
  constructor
  · exact (C5_register_failure
      { constructOk := fun _ _ => false, startOk := fun _ => true,
        stopOk := fun _ => true } 0 regEmpty "a" "not-a-language" "tiny"
      true).1 (by decide)
  · exact (C5_register_failure envStartFails 0 regEmpty "a" "zh" "tiny"
      true).2 (by decide) (by decide)

/-! ## Audio statistics — `app/api/websocket.py`, binary-frame branch -/

/-- Per-session audio statistics (websocket.py lines 214-221).  The
initial `min_chunk_size` is `float('inf')`; since every later value is a
byte count, infinity is embedded as `none`. -/
structure AudioStats where
  first_chunk_time : Option Nat
  last_chunk_time : Option Nat
  total_chunks : Nat
  total_bytes : Nat
  max_chunk_size : Nat
  min_chunk_size : Option Nat
deriving DecidableEq, Repr

/-- Statistics dictionary created at connection setup
(websocket.py lines 214-221). -/
def initAudioStats : AudioStats :=
  { first_chunk_time := none, last_chunk_time := none, total_chunks := 0,
    total_bytes := 0, max_chunk_size := 0, min_chunk_size := none }

/-- The statistics update block of the binary-frame branch
(websocket.py lines 283-292), for a frame of `len` bytes arriving at
instant `now`. -/
def updateAudioStats (stats : AudioStats) (len now : Nat) : AudioStats :=
  { first_chunk_time := some (stats.first_chunk_time.getD now)
    last_chunk_time := some now
    total_chunks := stats.total_chunks + 1
    total_bytes := stats.total_bytes + len
    max_chunk_size := max stats.max_chunk_size len
    min_chunk_size := some ((stats.min_chunk_size.getD len).min len) }

/-- Embedding of the whole binary-frame branch of `websocket_transcribe`
(websocket.py lines 275-311): the statistics are updated first, then the
frame is forwarded via `service.process_audio`, whose Boolean result is
discarded and whose exceptions are caught and only logged (lines
302-311).  `forwardOk` abstracts the outcome of that forward (it is
`False` when the session is unregistered, the engine raises, or the
restart attempt fails — transcription.py lines 56-90). -/
def handleAudioFrame (stats : AudioStats) (len now : Nat)
    (forwardOk : Bool) : AudioStats :=
  let stats1 := updateAudioStats stats len now
  let _ := forwardOk
  stats1

/-- C8 counterexample: a frame whose forwarding fails still changes the
session's `AudioStats` — the update block precedes the forward and does
not depend on its outcome — contradicting the claim that stats are
updated only after a successful forward. -/
theorem C8_counterexample :
    handleAudioFrame initAudioStats 10 5 false ≠ initAudioStats ∧
    (handleAudioFrame initAudioStats 10 5 false).total_chunks = 1 ∧
    (handleAudioFrame initAudioStats 10 5 false).total_bytes = 10 := by
  refine ⟨by decide, by decide, by decide⟩

/-- C8 (amended): for every received binary frame the session's
`AudioStats` are updated *before* the frame is forwarded to the engine,
and identically whether or not the forward succeeds; the update itself
increments the chunk count, adds the byte length, refreshes the
min/max chunk sizes and the first/last timestamps. -/
theorem C8_stats_updated_regardless_of_forward
    (stats : AudioStats) (len now : Nat) (forwardOk : Bool) :
    handleAudioFrame stats len now forwardOk =
      updateAudioStats stats len now ∧
    (handleAudioFrame stats len now forwardOk).total_chunks =
      stats.total_chunks + 1 ∧
    (handleAudioFrame stats len now forwardOk).total_bytes =
      stats.total_bytes + len := by
  exact ⟨rfl, rfl, rfl⟩

/-! ## Result fan-out — `send_transcription_result` in websocket.py -/

/-- Transport-side view of one entry of `active_connections`:
`state_connected` is whether `websocket.client_state.name == "CONNECTED"`
(websocket.py line 473); `sendOk` / `fallbackOk` are whether the first
`send_json` and the raw-text fallback `send_json` succeed (they raise
otherwise: lines 477, 489). -/
structure ConnInfo where
  state_connected : Bool
  sendOk : Bool
  fallbackOk : Bool
deriving DecidableEq, Repr

/-- One transcription message as sent to a client.  The enriched form
(websocket.py lines 456-464) carries `refined_text`, `translation` and the
language pair; the fallback form (lines 489-493) carries only the raw
text.  The wall-clock timestamp is omitted. -/
structure WsMessage where
  text : String
  refined_text : Option String
  translation : Option String
  source_language : Option String
  target_language : Option String
deriving DecidableEq, Repr

/-- One delivery performed by the fan-out callback. -/
structure Sent where
  client_id : String
  message : WsMessage
deriving DecidableEq, Repr

/-- Embedding of the fan-out callback `send_transcription_result`
(websocket.py lines 392-519).  The callback receives only the recognized
`text` — no session id: `register_client` installs this same module-level
function as the callback of every session (line 245).  Empty/blank text
sends nothing; otherwise the callback iterates over *all* active
connections, resolves each recipient's own language pair from the client
registry (defaults `zh`/`en`), runs `process_text` (with no history and no
keywords, exactly as the call site passes them — lines 443-447), and sends
the combined message to every connection whose state is CONNECTED; a
failed send falls back to one raw-text-only send for that recipient. -/
def send_transcription_result (store : CtxState) (available : Bool)
    (resp : LLMResponse) (conns : List (String × ConnInfo))
    (reg : Registry) (text : String) : List Sent :=
  if isBlank text then []
  else
    conns.flatMap (fun conn =>
      let client_id := conn.1
      let info := conn.2
      let langs :=
        match reg client_id with
        | some c => (c.language, c.target_language)
        | none => ("zh", "en")
      let processed :=
        process_text store available resp text [] langs.1 langs.2 []
      if info.state_connected then
        if info.sendOk then
          [{ client_id := client_id
             message :=
               { text := text, refined_text := some processed.refined_text,
                 translation := some processed.translation,
                 source_language := some langs.1,
                 target_language := some langs.2 } }]
        else if info.fallbackOk then
          [{ client_id := client_id
             message :=
               { text := text, refined_text := none, translation := none,
                 source_language := none, target_language := none } }]
        else []
      else [])

/-- A second registered session `"b"` with engine handle identity 2. -/
def clientB : Client :=
  { processor := { pid := 2, language := "ja", model_type := "tiny",
                   debug_mode := false, running := true },
    language := "ja", model_type := "tiny", target_language := "en",
    debug_mode := false, keywords := [] }

/-- Registry holding the sessions `"a"` and `"b"`. -/
def regAB : Registry :=
  fun x => if x = "a" then some clientA
    else if x = "b" then some clientB else none

/-- Two active connections, both CONNECTED with working sends. -/
def connsAB : List (String × ConnInfo) :=
  [("a", { state_connected := true, sendOk := true, fallbackOk := true }),
   ("b", { state_connected := true, sendOk := true, fallbackOk := true })]

/-- C1 counterexample: with sessions `"a"` and `"b"` both connected, one
engine callback firing with non-empty text delivers a transcription
message to *both* sinks.  The callback has no session parameter — every
session's engine is registered with the same module-level function
(websocket.py line 245) — so whichever session's engine fired, the other
session's sink also receives the result, contradicting "delivered to that
session's own transport sink only". -/
theorem C1_counterexample :
    (send_transcription_result initCtxState true .raises connsAB regAB
        "hello").map Sent.client_id = ["a", "b"] ∧
    "a" ≠ "b" := by
  refine ⟨by decide, by decide⟩

/-- C1 (amended): the fan-out callback is a single global function with
no session binding; whenever it fires with non-blank recognized text it
delivers one transcription message to *every* active connection whose
transport is in CONNECTED state and whose send (or raw-text fallback
send) succeeds — each message computed with the recipient's own language
configuration — rather than to the originating session's sink only.
Blank text delivers nothing. -/
theorem C1_broadcast_to_all_connections (store : CtxState)
    (available : Bool) (resp : LLMResponse)
    (conns : List (String × ConnInfo)) (reg : Registry) (text : String)
    (h : isBlank text = false) :
    (send_transcription_result store available resp conns reg text).map
        Sent.client_id =
      (conns.filter (fun conn => conn.2.state_connected &&
        (conn.2.sendOk || conn.2.fallbackOk))).map Prod.fst := by
  unfold send_transcription_result
  simp only [h, Bool.false_eq_true, if_false]
  induction conns with
  | nil => rfl
  | cons conn rest ih =>
    obtain ⟨cid, info⟩ := conn
    cases hst : info.state_connected <;> cases hsd : info.sendOk <;>
      cases hfb : info.fallbackOk <;>
      simp [hst, hsd, hfb, List.filter_cons, ih]

/-- Witness for C1 (amended) at concrete inputs: both connections of
`connsAB` receive the delivery. -/
theorem C1_witness :
    isBlank "hello" = false ∧
    (send_transcription_result initCtxState true .raises connsAB regAB
        "hello").map Sent.client_id =
      (connsAB.filter (fun conn => conn.2.state_connected &&
        (conn.2.sendOk || conn.2.fallbackOk))).map Prod.fst := by
  exact ⟨by decide, C1_broadcast_to_all_connections initCtxState true
    .raises connsAB regAB "hello" (by decide)⟩

/-- C8 witness is not required (the theorem has no propositional
hypothesis), but the claims C4 and C8 rely on `process_audio` of the
Session Manager only through the abstracted forward outcome; this lemma
records that `process_audio` on an unknown id fails without touching the
registry, tying the abstraction back to transcription.py lines 58-60. -/
theorem process_audio_unknown_id (env : EngineEnv) (feedOk : Nat → Bool)
    (reg : Registry) (cid : String) (h : reg cid = none) :
    process_audio env feedOk reg cid = (false, reg, []) := by
  unfold process_audio
  rw [h]
